import Mathlib

/-!
Shallow embedding of the chat/session manager, feedback aggregator and
persistence backends of the `comm` Telegram comment bot, together with
proofs about the properties its specification states.

Sources embedded here:
* `src/bot/managers/chatManager.js` — `ChatManager` (flat-file JSON paths and
  the dispatch to the database backend) and `LearningManager` (feedback).
* `src/unnamed/part_003` — `DatabaseManager` (SQLite backend).
* `src/cloud-init.sh` (embedded `qwenApi.js`) — `QwenApi.generateComments`
  retry loop.

Conventions of the embedding:
* JS `Date`/ISO timestamps become `Nat` (milliseconds); timestamp generation
  (`Date.now()`) and random id generation become explicit parameters.
* The in-memory `Map` caches keyed by user id are modelled per user: every
  operation of the source touches exactly one user's entry, so each JSON
  operation acts on that user's `UserData` (with `getUserData`'s default
  `{chats: [], activeChatId: null}` as the initial state).
* Fallible operations return `Except CmErr α` paired with the post state.
  Each error constructor corresponds to one failure branch of the source
  (the source returns `{success:false, error: <message string>}`).
-/

namespace Comm

/-- A chat record of the flat-file store
(`createChatJSON`: `{id, name, createdAt, lastUsed, messageCount}`). -/
structure Chat where
  id : String
  name : String
  createdAt : Nat
  lastUsed : Nat
  messageCount : Nat
deriving Repr, DecidableEq

/-- One user's entry of the `userChats` map:
`{ chats: [], activeChatId: null }`. -/
structure UserData where
  chats : List Chat
  activeChatId : Option String
deriving Repr, DecidableEq

/-- Embedding of `getUserData`'s default entry for a user not yet present. -/
def initialUserData : UserData := ⟨[], none⟩

/-- The chat-related configuration values read from `config.chat`
(`maxChatsPerUser`, `maxChatNameLength`). -/
structure ChatConfig where
  maxChatsPerUser : Nat
  maxChatNameLength : Nat
deriving Repr, DecidableEq

/-- Default configuration (env example: `MAX_CHATS_PER_USER=10`,
`MAX_CHAT_NAME_LENGTH=50`). -/
def defaultChatConfig : ChatConfig := ⟨10, 50⟩

/-- Failure branches of the embedded operations.  Each constructor stands for
one distinct `{success:false, error: <string>}` branch of the source:
* `limitExceeded` — "Достигнут лимит чатов (...)" (createChatJSON/createChatDB);
* `nameTooLong` — "Название чата слишком длинное (...)" (create/rename);
* `chatNotFound` — "Чат не найден" (select/rename/delete);
* `noActiveChat` — "Нет активного чата" (getActiveChatJSON);
* `activeChatMissing` — "Активный чат не найден" (getActiveChatJSON when the
  stored id dangles, and `DatabaseManager.getActiveChat` with no active row);
* `checkConstraint` — a thrown SQLite constraint error caught and returned as
  `{success:false, error: error.message}`. -/
inductive CmErr where
  | limitExceeded
  | nameTooLong
  | chatNotFound
  | noActiveChat
  | activeChatMissing
  | checkConstraint
deriving Repr, DecidableEq

/-- Replace the first element satisfying `p` by its image under `f`
(the source mutates the object returned by `Array.prototype.find`). -/
def updateFirst (p : Chat → Bool) (f : Chat → Chat) : List Chat → List Chat
  | [] => []
  | c :: cs => if p c then f c :: cs else c :: updateFirst p f cs

/-- Embedding of `ChatManager.createChatJSON(userId, chatName)`.  Checks the chat limit,
then the name length; appends the new chat; makes it active only when it is
the user's first chat.  `newId` stands for the generated
`chat_${Date.now()}_${random}` id and `now` for `Date.now()`. -/
def createChatJSON (cfg : ChatConfig) (u : UserData) (chatName : String)
    (newId : String) (now : Nat) : Except CmErr Chat × UserData :=
  if cfg.maxChatsPerUser ≤ u.chats.length then (.error .limitExceeded, u)
  else if cfg.maxChatNameLength < chatName.length then (.error .nameTooLong, u)
  else
    let newChat : Chat := ⟨newId, chatName, now, now, 0⟩
    let chats' := u.chats ++ [newChat]
    let active' := if chats'.length = 1 then some newChat.id else u.activeChatId
    (.ok newChat, ⟨chats', active'⟩)

/-- Embedding of `ChatManager.getChatsJSON(userId)`: returns the stored chat list (in its
stored order) and the active chat id. -/
def getChatsJSON (u : UserData) : List Chat × Option String :=
  (u.chats, u.activeChatId)

/-- Embedding of `ChatManager.selectChatJSON(userId, chatId)`: fails when the chat is
absent; otherwise sets `activeChatId` and stamps the chat's `lastUsed`. -/
def selectChatJSON (u : UserData) (chatId : String) (now : Nat) :
    Except CmErr Chat × UserData :=
  match u.chats.find? (fun c => c.id == chatId) with
  | none => (.error .chatNotFound, u)
  | some c =>
      (.ok { c with lastUsed := now },
       ⟨updateFirst (fun d => d.id == chatId) (fun d => { d with lastUsed := now }) u.chats,
        some chatId⟩)

/-- Embedding of `ChatManager.renameChat(userId, chatId, newName)`: fails when the chat is
absent, then validates the new name's length, then renames.  Note the source
has no database branch here: it always operates on the JSON store. -/
def renameChat (cfg : ChatConfig) (u : UserData) (chatId newName : String) :
    Except CmErr Chat × UserData :=
  match u.chats.find? (fun c => c.id == chatId) with
  | none => (.error .chatNotFound, u)
  | some c =>
      if cfg.maxChatNameLength < newName.length then (.error .nameTooLong, u)
      else
        (.ok { c with name := newName },
         ⟨updateFirst (fun d => d.id == chatId) (fun d => { d with name := newName }) u.chats,
          u.activeChatId⟩)

/-- Embedding of `ChatManager.deleteChat(userId, chatId)`: fails when the chat is absent;
otherwise removes the first chat with that id (`splice` at `findIndex`), and
when the removed chat was active replaces the active id with the id of the
first remaining chat (`userData.chats[0].id`) or `null`.  Like `renameChat`,
the source has no database branch. -/
def deleteChat (u : UserData) (chatId : String) : Except CmErr Chat × UserData :=
  match u.chats.find? (fun c => c.id == chatId) with
  | none => (.error .chatNotFound, u)
  | some deleted =>
      let chats' := u.chats.eraseP (fun c => c.id == chatId)
      let active' :=
        if u.activeChatId = some chatId then chats'.head?.map (·.id)
        else u.activeChatId
      (.ok deleted, ⟨chats', active'⟩)

/-- Embedding of `ChatManager.getActiveChatJSON(userId)`: fails when no active id is set
(`!userData.activeChatId`; ids are nonempty strings, so falsiness means
`null`), or when the stored id matches no chat. -/
def getActiveChatJSON (u : UserData) : Except CmErr Chat :=
  match u.activeChatId with
  | none => .error .noActiveChat
  | some aid =>
      match u.chats.find? (fun c => c.id == aid) with
      | none => .error .activeChatMissing
      | some c => .ok c

/-- The staleness predicate of `startAutoCleanup`:
`(now - lastUsed) / (1000*60*60*24) > 30` over real division, i.e.
`now - lastUsed > 30 * 86400000` milliseconds. -/
def staleChat (now : Nat) (c : Chat) : Bool :=
  (30 * 86400000 : Int) < (now : Int) - (c.lastUsed : Int)

/-- One pass of `ChatManager.startAutoCleanup`'s interval body over one
user's entry: collect the stale chats, remove each by id (`splice` at
`findIndex`, a no-op when absent), then reset a dangling active id to
the first remaining chat or `null`. -/
def autoCleanupUser (now : Nat) (u : UserData) : UserData :=
  let oldChats := u.chats.filter (staleChat now)
  let chats' := oldChats.foldl (fun cs oc => cs.eraseP (fun c => c.id == oc.id)) u.chats
  let active' :=
    match u.activeChatId with
    | none => none
    | some aid =>
        if (chats'.find? (fun c => c.id == aid)).isSome then some aid
        else chats'.head?.map (·.id)
  ⟨chats', active'⟩

/-! ### Structured (SQLite) backend — `DatabaseManager` of `src/unnamed/part_003` -/

/-- A row of the `users` table (`id INTEGER PRIMARY KEY`,
`telegram_id INTEGER UNIQUE NOT NULL`; the profile columns are irrelevant to
the claims and omitted). -/
structure DbUser where
  id : Nat
  telegramId : Nat
deriving Repr, DecidableEq

/-- A row of the `chats` table. -/
structure DbChat where
  id : Nat
  userId : Nat
  name : String
  model : String
  isActive : Bool
  messageCount : Nat
  createdAt : Nat
  updatedAt : Nat
deriving Repr, DecidableEq

/-- A row of the `feedback` table.  `rating` is nullable
(`rating INTEGER CHECK (rating >= 1 AND rating <= 5)`), and so is
`feedback_text`. -/
structure DbFeedback where
  id : Nat
  userId : Nat
  commentId : String
  rating : Option Int
  feedbackText : Option String
  feedbackType : String
  context : String
  createdAt : Nat
deriving Repr, DecidableEq

/-- The database state: table contents plus the next AUTOINCREMENT/rowid
values.  Rows are kept in insertion (rowid) order. -/
structure DbState where
  users : List DbUser
  chats : List DbChat
  feedback : List DbFeedback
  nextUserId : Nat
  nextChatId : Nat
  nextFeedbackId : Nat
deriving Repr, DecidableEq

/-- A freshly initialised database (ids start at 1). -/
def emptyDbState : DbState := ⟨[], [], [], 1, 1, 1⟩

/-- Embedding of `ORDER BY updated_at DESC` as a relation on chat rows. -/
def byUpdatedDesc (a b : DbChat) : Prop := b.updatedAt ≤ a.updatedAt

instance : DecidableRel byUpdatedDesc := fun a b => Nat.decLe b.updatedAt a.updatedAt

instance : IsTotal DbChat byUpdatedDesc := ⟨fun a b => Nat.le_total b.updatedAt a.updatedAt⟩

instance : IsTrans DbChat byUpdatedDesc := ⟨fun _ _ _ hab hbc => Nat.le_trans hbc hab⟩

/-- Embedding of `DatabaseManager.getUserOrCreate(telegramId)`: return the existing row or
insert a new one. -/
def getUserOrCreate (s : DbState) (telegramId : Nat) : DbUser × DbState :=
  match s.users.find? (fun u => u.telegramId == telegramId) with
  | some u => (u, s)
  | none =>
      let u : DbUser := ⟨s.nextUserId, telegramId⟩
      (u, { s with users := s.users ++ [u], nextUserId := s.nextUserId + 1 })

/-- Embedding of `DatabaseManager.createChat(userId, name, model)`: deactivate every chat
of the user (`UPDATE chats SET is_active = 0 WHERE user_id = ?`), then insert
the new chat with `is_active = 1`.  `now` stands for `CURRENT_TIMESTAMP`.
Neither statement can violate a constraint, so the operation succeeds. -/
def dbCreateChat (s : DbState) (userId : Nat) (name model : String) (now : Nat) :
    Except CmErr DbChat × DbState :=
  let deactivated := s.chats.map
    (fun c => if c.userId == userId then { c with isActive := false } else c)
  let newChat : DbChat := ⟨s.nextChatId, userId, name, model, true, 0, now, now⟩
  (.ok newChat,
   { s with chats := deactivated ++ [newChat], nextChatId := s.nextChatId + 1 })

/-- Embedding of `DatabaseManager.getUserChats(userId)`:
`SELECT * FROM chats WHERE user_id = ? ORDER BY updated_at DESC`, modelled as
a stable sort of the filtered rows (SQLite returns ties in rowid order). -/
def dbGetUserChats (s : DbState) (userId : Nat) : List DbChat :=
  (s.chats.filter (fun c => c.userId == userId)).insertionSort byUpdatedDesc

/-- Embedding of `DatabaseManager.getActiveChat(userId)`:
`SELECT * FROM chats WHERE user_id = ? AND is_active = 1 ORDER BY updated_at
DESC LIMIT 1`; fails ("Активный чат не найден") when no row matches. -/
def dbGetActiveChat (s : DbState) (userId : Nat) : Except CmErr DbChat :=
  match ((s.chats.filter (fun c => c.userId == userId && c.isActive)).insertionSort
      byUpdatedDesc).head? with
  | none => .error .activeChatMissing
  | some c => .ok c

/-- Embedding of `DatabaseManager.saveFeedback(userId, commentId, rating, feedbackText,
feedbackType, context)`: a single INSERT whose row must pass the table's
CHECK constraints (`rating` NULL or in `[1,5]`; `feedback_type` one of the
two literals).  A violated constraint makes the driver throw; the catch
block returns `{success:false, error: error.message}`. -/
def dbSaveFeedback (s : DbState) (userId : Nat) (commentId : String)
    (rating : Option Int) (feedbackText : Option String) (feedbackType : String)
    (context : String) (now : Nat) : Except CmErr Nat × DbState :=
  let ratingOk := match rating with
    | none => true
    | some r => 1 ≤ r && r ≤ 5
  let typeOk := feedbackType == "comment_rating" || feedbackType == "improvement_feedback"
  if ratingOk && typeOk then
    let fb : DbFeedback :=
      ⟨s.nextFeedbackId, userId, commentId, rating, feedbackText, feedbackType, context, now⟩
    (.ok fb.id,
     { s with feedback := s.feedback ++ [fb], nextFeedbackId := s.nextFeedbackId + 1 })
  else (.error .checkConstraint, s)

/-! ### `ChatManager` wrappers over the database backend, and the dispatcher -/

/-- Embedding of `ChatManager.createChatDB(userId, chatName)`: resolve the user, check the
chat limit against `getUserChats`, check the name length, then call
`DatabaseManager.createChat`.  `model` stands for `getUserModel(userId)`. -/
def createChatDB (cfg : ChatConfig) (s : DbState) (telegramId : Nat)
    (chatName model : String) (now : Nat) : Except CmErr DbChat × DbState :=
  let user := (getUserOrCreate s telegramId).1
  let s1 := (getUserOrCreate s telegramId).2
  if cfg.maxChatsPerUser ≤ (dbGetUserChats s1 user.id).length then
    (.error .limitExceeded, s1)
  else if cfg.maxChatNameLength < chatName.length then (.error .nameTooLong, s1)
  else dbCreateChat s1 user.id chatName model now

/-- Result of the `createChat` dispatcher: a JSON chat or a database row. -/
inductive AnyChat where
  | json (c : Chat)
  | db (c : DbChat)
deriving Repr, DecidableEq

/-- The `ChatManager` state relevant to one user: the backend flag chosen at
`init`, the user's flat-file entry, and the database. -/
structure CMState where
  useDatabase : Bool
  json : UserData
  db : DbState
deriving Repr, DecidableEq

/-- Embedding of `ChatManager.createChat(userId, chatName)`: dispatches on `useDatabase`. -/
def cmCreateChat (cfg : ChatConfig) (cm : CMState) (telegramId : Nat)
    (chatName model newId : String) (now : Nat) : Except CmErr AnyChat × CMState :=
  if cm.useDatabase then
    let (r, s') := createChatDB cfg cm.db telegramId chatName model now
    (r.map .db, { cm with db := s' })
  else
    let (r, u') := createChatJSON cfg cm.json chatName newId now
    (r.map .json, { cm with json := u' })

/-- Embedding of `ChatManager.renameChat` at the manager level: the source has no
`useDatabase` branch here, so the flat-file store is used unconditionally. -/
def cmRenameChat (cfg : ChatConfig) (cm : CMState) (chatId newName : String) :
    Except CmErr Chat × CMState :=
  let (r, u') := renameChat cfg cm.json chatId newName
  (r, { cm with json := u' })

/-- Embedding of `ChatManager.deleteChat` at the manager level: likewise the source has no
`useDatabase` branch, so the flat-file store is used unconditionally. -/
def cmDeleteChat (cm : CMState) (chatId : String) : Except CmErr Chat × CMState :=
  let (r, u') := deleteChat cm.json chatId
  (r, { cm with json := u' })

/-! ### `LearningManager` — flat-file feedback store and statistics -/

/-- One entry of a user's `feedbackCache` list.  `saveCommentRatingJSON`
writes `{id, commentId, rating, context, timestamp, type:'comment_rating'}`;
`saveImprovementFeedback` writes `{id, commentId, feedback, context,
timestamp, type:'improvement_feedback'}`.  `context` is kept opaque. -/
inductive FeedbackEntry where
  | rating (id commentId : String) (value : Int) (context : String) (timestamp : Nat)
  | improvement (id commentId : String) (text : String) (context : String) (timestamp : Nat)
deriving Repr, DecidableEq

/-- Embedding of `LearningManager.saveCommentRatingJSON(userId, commentId, rating,
context)`: appends the record to the user's list.  No validation of the
rating value is performed. -/
def saveCommentRatingJSON (cache : List FeedbackEntry) (commentId : String)
    (value : Int) (context : String) (newId : String) (now : Nat) :
    Except CmErr FeedbackEntry × List FeedbackEntry :=
  let fb := FeedbackEntry.rating newId commentId value context now
  (.ok fb, cache ++ [fb])

/-- Embedding of `LearningManager.saveImprovementFeedback(userId, commentId, feedback,
context)`: appends the record to the user's list. -/
def saveImprovementFeedback (cache : List FeedbackEntry) (commentId : String)
    (text : String) (context : String) (newId : String) (now : Nat) :
    Except CmErr FeedbackEntry × List FeedbackEntry :=
  let fb := FeedbackEntry.improvement newId commentId text context now
  (.ok fb, cache ++ [fb])

/-- Embedding of `LearningManager.saveCommentRatingDB`: resolve the user, then
`DatabaseManager.saveFeedback(user.id, commentId, rating, null,
'comment_rating', context)`. -/
def saveCommentRatingDB (s : DbState) (telegramId : Nat) (commentId : String)
    (value : Int) (context : String) (now : Nat) : Except CmErr Nat × DbState :=
  dbSaveFeedback (getUserOrCreate s telegramId).2 (getUserOrCreate s telegramId).1.id
    commentId (some value) none "comment_rating" context now

/-- The statistics object of `LearningManager.getUserFeedbackStats`.
`ratings` is the JS object `{1:0,...,5:0}` read as a total map (keys never
written stay 0).  `averageRating` is `0` (a number) while no rating-kind
records exist — modelled `none` — and otherwise the string
`(totalRating/ratingCount).toFixed(1)` — modelled `some t` where `t` is the
displayed value in tenths. -/
structure FeedbackStats where
  totalFeedback : Nat
  ratings : Int → Nat
  improvementFeedback : Nat
  averageRating : Option Int

/-- ECMAScript `x.toFixed(1)` on the quotient `t / c`, in tenths: the integer
`n` minimising `|n/10 - t/c|`, the larger one on ties, i.e.
`⌊10*t/c + 1/2⌋`, written with integer floor division as
`(20*t + c) fdiv (2*c)`.  (The source divides IEEE doubles; for the integer
sums and counts arising here the rational quotient is what the double
rounds.) -/
def toFixed1 (t : Int) (c : Nat) : Int :=
  Int.fdiv (20 * t + c) (2 * c)

/-- The loop body of `getUserFeedbackStats`: the accumulator carries the
stats object under construction together with `totalRating` and
`ratingCount`. -/
def statsStep (a : FeedbackStats × Int × Nat) (fb : FeedbackEntry) :
    FeedbackStats × Int × Nat :=
  match fb with
  | .rating _ _ v _ _ =>
      ({ a.1 with ratings := fun x => if x = v then a.1.ratings x + 1 else a.1.ratings x },
       a.2.1 + v, a.2.2 + 1)
  | .improvement _ _ _ _ _ =>
      ({ a.1 with improvementFeedback := a.1.improvementFeedback + 1 }, a.2)

/-- Embedding of `LearningManager.getUserFeedbackStats(userId)`: `totalFeedback` is the
list length; the loop fills the rating buckets, `totalRating`,
`ratingCount` and the improvement count; `averageRating` is set only when
`ratingCount > 0`. -/
def getUserFeedbackStats (cache : List FeedbackEntry) : FeedbackStats :=
  let base : FeedbackStats := ⟨cache.length, fun _ => 0, 0, none⟩
  let acc := cache.foldl statsStep (base, 0, 0)
  if acc.2.2 = 0 then acc.1
  else { acc.1 with averageRating := some (toFixed1 acc.2.1 acc.2.2) }

/-- The rating values of the rating-kind entries of a list, in order. -/
def ratingValues (cache : List FeedbackEntry) : List Int :=
  cache.filterMap (fun fb => match fb with
    | .rating _ _ v _ _ => some v
    | .improvement _ _ _ _ _ => none)

/-- Whether an entry is an improvement-kind record. -/
def isImprovement (fb : FeedbackEntry) : Bool :=
  match fb with
  | .rating _ _ _ _ _ => false
  | .improvement _ _ _ _ _ => true

/-! ### `QwenApi.generateComments` retry loop (embedded in `cloud-init.sh`) -/

/-- Failure modes of one generation attempt: the validation failure returned
without retrying, or a thrown request error (the value later passed to
`Utils.handleApiError`). -/
inductive GenErr where
  | invalidText
  | apiError (code : Nat)
deriving Repr, DecidableEq

/-- Embedding of `Utils.validateText` restricted to actual strings: the text must be
non-empty after trimming (`text.trim().length === 0` rejects), i.e. it holds
some non-whitespace character. -/
def validText (text : String) : Bool := text.toList.any (fun c => !c.isWhitespace)

/-- The `for (let attempt = 1; attempt <= retries; attempt++)` body of
`generateComments`.  `outcomes i` is what the remote call would produce on
attempt `i`.  `remaining` counts the loop iterations left (the source loop
runs while `attempt ≤ retries`; the invariant `attempt + remaining =
retries + 1` ties the two).  Returns the result (`none` when the loop bound
is exhausted — the JS function would fall through returning `undefined`,
reachable only when `retries = 0`), the list of attempt indices made, and
the list of delays (ms) slept before each retry: `2000 * attempt` after a
failed attempt that is not the last. -/
def genLoop (outcomes : Nat → Except GenErr String) (text : String) (retries : Nat) :
    Nat → Nat → Option (Except GenErr String) × List Nat × List Nat
  | _, 0 => (none, [], [])
  | attempt, remaining + 1 =>
      if validText text then
        match outcomes attempt with
        | .ok t => (some (.ok t), [attempt], [])
        | .error e =>
            if attempt = retries then (some (.error e), [attempt], [])
            else
              let (r, as', ds) := genLoop outcomes text retries (attempt + 1) remaining
              (r, attempt :: as', 2000 * attempt :: ds)
      else (some (.error .invalidText), [], [])

/-- Embedding of `QwenApi.generateComments`: `retries = maxRetries || config.qwen.maxRetries`
(a passed `0`/`null` falls back to the configured value, default 3), then the
attempt loop starting at attempt 1. -/
def generateComments (outcomes : Nat → Except GenErr String) (text : String)
    (maxRetries : Option Nat) (cfgMaxRetries : Nat) :
    Option (Except GenErr String) × List Nat × List Nat :=
  let retries := match maxRetries with
    | none => cfgMaxRetries
    | some 0 => cfgMaxRetries
    | some n => n
  genLoop outcomes text retries 1 retries

/-! ### Operation sequences over the flat-file store (for the invariant) -/

/-- The flat-file chat operations whose sequences the dangling-active-id
invariant quantifies over.  Generated ids and timestamps are carried as
parameters. -/
inductive ChatOp where
  | create (chatName newId : String) (now : Nat)
  | select (chatId : String) (now : Nat)
  | delete (chatId : String)
  | cleanup (now : Nat)
deriving Repr, DecidableEq

/-- Apply one operation to a user's flat-file entry (results discarded). -/
def applyChatOp (cfg : ChatConfig) (u : UserData) : ChatOp → UserData
  | .create n i t => (createChatJSON cfg u n i t).2
  | .select cid t => (selectChatJSON u cid t).2
  | .delete cid => (deleteChat u cid).2
  | .cleanup t => autoCleanupUser t u

/-- Run a sequence of operations from the fresh entry `getUserData` creates. -/
def runChatOps (cfg : ChatConfig) (ops : List ChatOp) : UserData :=
  ops.foldl (applyChatOp cfg) initialUserData

/-- The active chat id never dangles: it is `null` or the id of a stored
chat. -/
def ActiveIdConsistent (u : UserData) : Prop :=
  ∀ aid, u.activeChatId = some aid → ∃ c ∈ u.chats, c.id = aid

/-! ### Concrete states used by counterexamples and witnesses -/

/-- A user with one chat `A`, which is active. -/
def oneChatUser : UserData := ⟨[⟨"A", "first", 0, 0, 0⟩], some "A"⟩

/-- A user with three chats created at times 0, 1, 2 (stored in creation
order, as `createChatJSON` appends), whose oldest chat `A` is active. -/
def threeChatUser : UserData :=
  ⟨[⟨"A", "a", 0, 0, 0⟩, ⟨"B", "b", 1, 1, 0⟩, ⟨"C", "c", 2, 2, 0⟩], some "A"⟩

/-- The flat-file state after a fresh user creates chat "A" (time 0) and
then chat "B" (time 1). -/
def jsonAB : UserData :=
  runChatOps defaultChatConfig [.create "A" "idA" 0, .create "B" "idB" 1]

/-- The database state after user 7 creates chat "A" (time 0) and then chat
"B" (time 1). -/
def dbAB : DbState :=
  (createChatDB defaultChatConfig
    (createChatDB defaultChatConfig emptyDbState 7 "A" "m" 0).2 7 "B" "m" 1).2

/-- The database state after user 7 creates the chat named "orig" (row id 1). -/
def dbOrig : DbState :=
  (createChatDB defaultChatConfig emptyDbState 7 "orig" "m" 0).2

/-- A manager that uses the database backend, whose database holds the chat
"orig" of user 7 and whose flat-file store is empty. -/
def cmDbMode : CMState := ⟨true, initialUserData, dbOrig⟩

/-- A manager in flat-file mode whose user is at a configured limit of one
chat. -/
def cmAtLimit : CMState := ⟨false, oneChatUser, emptyDbState⟩

/-! ### Helper lemmas -/

theorem map_id_updateFirst (p : Chat → Bool) (f : Chat → Chat)
    (hf : ∀ c, (f c).id = c.id) :
    ∀ l : List Chat, (updateFirst p f l).map (·.id) = l.map (·.id)
  | [] => rfl
  | c :: cs => by
    by_cases h : p c
    · simp [updateFirst, h, hf c]
    · simp [updateFirst, h, map_id_updateFirst p f hf cs]

theorem activeConsistent_initial : ActiveIdConsistent initialUserData := by
  intro aid haid
  simp [initialUserData] at haid

theorem activeConsistent_createChatJSON (cfg : ChatConfig) (u : UserData)
    (n i : String) (t : Nat) (h : ActiveIdConsistent u) :
    ActiveIdConsistent (createChatJSON cfg u n i t).2 := by
  unfold createChatJSON
  split_ifs with h1 h2
  · exact h
  · exact h
  · intro aid haid
    dsimp at haid
    by_cases hlen : u.chats.length + 1 = 1
    · simp [List.length_append, hlen] at haid
      exact ⟨⟨i, n, t, t, 0⟩, by simp, haid⟩
    · simp [List.length_append, hlen] at haid
      obtain ⟨c, hc, hcid⟩ := h aid haid
      exact ⟨c, by simp [hc], hcid⟩

theorem activeConsistent_selectChatJSON (u : UserData) (cid : String) (t : Nat)
    (h : ActiveIdConsistent u) : ActiveIdConsistent (selectChatJSON u cid t).2 := by
  unfold selectChatJSON
  cases hf : u.chats.find? (fun c => c.id == cid) with
  | none => exact h
  | some c =>
    intro aid haid
    dsimp at haid
    have hid : c.id = cid := by simpa using List.find?_some hf
    have hmem := List.mem_of_find?_eq_some hf
    have hmap := map_id_updateFirst (fun d => d.id == cid)
      (fun d => { d with lastUsed := t }) (fun _ => rfl) u.chats
    have haid' : aid = cid := by simpa using haid.symm
    have : aid ∈ (updateFirst (fun d => d.id == cid)
        (fun d => { d with lastUsed := t }) u.chats).map (·.id) := by
      rw [hmap]
      exact List.mem_map.mpr ⟨c, hmem, by rw [hid, haid']⟩
    obtain ⟨d, hd, hdid⟩ := List.mem_map.mp this
    exact ⟨d, hd, hdid⟩

theorem activeConsistent_deleteChat (u : UserData) (cid : String)
    (h : ActiveIdConsistent u) : ActiveIdConsistent (deleteChat u cid).2 := by
  unfold deleteChat
  cases hf : u.chats.find? (fun c => c.id == cid) with
  | none => exact h
  | some del =>
    intro aid haid
    dsimp at haid
    by_cases hact : u.activeChatId = some cid
    · rw [if_pos hact] at haid
      cases hh : (u.chats.eraseP (fun c => c.id == cid)).head? with
      | none => rw [hh] at haid; exact absurd haid (by simp)
      | some d =>
        rw [hh] at haid
        obtain rfl : aid = d.id := by simpa using haid.symm
        exact ⟨d, List.mem_of_mem_head? hh, rfl⟩
    · rw [if_neg hact] at haid
      obtain ⟨c, hcmem, hcid⟩ := h aid haid
      have hne : (c.id == cid) = false := by
        have : aid ≠ cid := fun hh => hact (by rw [← hh]; exact haid)
        simp [hcid, this]
      exact ⟨c, (List.mem_eraseP_of_neg (by simp [hne])).mpr hcmem, hcid⟩

theorem activeConsistent_mk (chats' : List Chat) (prev : Option String) :
    ActiveIdConsistent ⟨chats',
      match prev with
      | none => none
      | some aid =>
          if (chats'.find? (fun c => c.id == aid)).isSome then some aid
          else chats'.head?.map (·.id)⟩ := by
  intro aid haid
  dsimp only at haid ⊢
  cases prev with
  | none => exact absurd haid (by simp)
  | some a =>
    dsimp only at haid
    by_cases hf : (chats'.find? (fun c => c.id == a)).isSome
    · rw [if_pos hf] at haid
      obtain rfl : a = aid := by simpa using haid
      obtain ⟨c, hcfind⟩ := Option.isSome_iff_exists.mp hf
      have hcid : c.id = a := by simpa using List.find?_some hcfind
      exact ⟨c, List.mem_of_find?_eq_some hcfind, hcid⟩
    · rw [if_neg hf] at haid
      cases hh : chats'.head? with
      | none => rw [hh] at haid; exact absurd haid (by simp)
      | some d =>
        rw [hh] at haid
        obtain rfl : aid = d.id := by simpa using haid.symm
        exact ⟨d, List.mem_of_mem_head? hh, rfl⟩

theorem activeConsistent_autoCleanupUser (t : Nat) (u : UserData) :
    ActiveIdConsistent (autoCleanupUser t u) := by
  unfold autoCleanupUser
  exact activeConsistent_mk _ u.activeChatId

theorem activeConsistent_applyChatOp (cfg : ChatConfig) (u : UserData) (op : ChatOp)
    (h : ActiveIdConsistent u) : ActiveIdConsistent (applyChatOp cfg u op) := by
  cases op with
  | create n i t => exact activeConsistent_createChatJSON cfg u n i t h
  | select cid t => exact activeConsistent_selectChatJSON u cid t h
  | delete cid => exact activeConsistent_deleteChat u cid h
  | cleanup t => exact activeConsistent_autoCleanupUser t u

theorem activeConsistent_foldl (cfg : ChatConfig) :
    ∀ (ops : List ChatOp) (u : UserData), ActiveIdConsistent u →
      ActiveIdConsistent (ops.foldl (applyChatOp cfg) u)
  | [], _, h => h
  | op :: ops, u, h =>
      activeConsistent_foldl cfg ops (applyChatOp cfg u op)
        (activeConsistent_applyChatOp cfg u op h)

/-! ### Claim theorems -/

/-- Claim C10: for every user, after any sequence of createChat, selectChat,
deleteChat and auto-cleanup operations on the flat-file store, the user's
`activeChatId` is either `null` or the id of a chat currently present in
that user's chat list — it never dangles. -/
theorem claim10_active_id_never_dangles (cfg : ChatConfig) (ops : List ChatOp) :
    ActiveIdConsistent (runChatOps cfg ops) :=
  activeConsistent_foldl cfg ops initialUserData activeConsistent_initial

/-- Claim C1 counterexample: in the flat-file backend, a user who already has
an active chat "A" successfully creates a second chat "B", yet "A" — not the
new chat — remains the active chat.  The new chat does not become the sole
active chat, refuting the claim for `createChatJSON`. -/
theorem claim1_counterexample :
    (createChatJSON defaultChatConfig oneChatUser "second" "B" 5).1
        = .ok ⟨"B", "second", 5, 5, 0⟩ ∧
    (createChatJSON defaultChatConfig oneChatUser "second" "B" 5).2.activeChatId
        = some "A" ∧
    some "A" ≠ some "B" :=
  ⟨rfl, rfl, by decide⟩

/-- Claim C1 (amended): in the database backend every successful `createChat`
makes the new chat the sole active chat of that user (all other chats of the
user are deactivated in the same operation); in the flat-file backend the new
chat becomes active only when it is the user's first chat, and otherwise the
previously active chat remains active. -/
theorem claim1_amended :
    (∀ (s : DbState) (uid : Nat) (name model : String) (now : Nat),
      ∃ nc, (dbCreateChat s uid name model now).1 = .ok nc ∧
        nc.userId = uid ∧ nc.isActive = true ∧ nc.name = name ∧
        nc ∈ (dbCreateChat s uid name model now).2.chats ∧
        ∀ c ∈ (dbCreateChat s uid name model now).2.chats,
          c.userId = uid → c.isActive = true → c = nc) ∧
    (∀ (cfg : ChatConfig) (u : UserData) (name newId : String) (now : Nat) (c : Chat),
      (createChatJSON cfg u name newId now).1 = .ok c →
        (u.chats = [] →
          (createChatJSON cfg u name newId now).2.activeChatId = some newId) ∧
        (u.chats ≠ [] →
          (createChatJSON cfg u name newId now).2.activeChatId = u.activeChatId)) := by
  constructor
  · intro s uid name model now
    refine ⟨⟨s.nextChatId, uid, name, model, true, 0, now, now⟩,
      rfl, rfl, rfl, rfl, by simp [dbCreateChat], ?_⟩
    intro c hc hcu hca
    simp only [dbCreateChat, List.mem_append] at hc
    rcases hc with hc | hc
    · obtain ⟨d, hd, rfl⟩ := List.mem_map.mp hc
      by_cases hdu : (d.userId == uid) = true
      · rw [if_pos hdu] at hca
        exact absurd hca (by simp)
      · rw [if_neg hdu] at hcu
        exact absurd (by simpa using hcu) (by simpa using hdu)
    · simpa using hc
  · intro cfg u name newId now c hsucc
    unfold createChatJSON at hsucc ⊢
    by_cases h1 : cfg.maxChatsPerUser ≤ u.chats.length
    · rw [if_pos h1] at hsucc
      exact absurd hsucc (by simp)
    · rw [if_neg h1] at hsucc ⊢
      by_cases h2 : cfg.maxChatNameLength < name.length
      · rw [if_pos h2] at hsucc
        exact absurd hsucc (by simp)
      · rw [if_neg h2] at hsucc ⊢
        constructor
        · intro hnil
          simp [hnil]
        · intro hne
          simp [hne]

/-- Witness for C1 (amended): a fresh user's first chat does become active
in the flat-file backend. -/
theorem claim1_witness :
    (initialUserData.chats = [] →
      (createChatJSON defaultChatConfig initialUserData "chat" "B" 0).2.activeChatId
        = some "B") ∧
    (initialUserData.chats ≠ [] →
      (createChatJSON defaultChatConfig initialUserData "chat" "B" 0).2.activeChatId
        = initialUserData.activeChatId) :=
  claim1_amended.2 defaultChatConfig initialUserData "chat" "B" 0
    ⟨"B", "chat", 0, 0, 0⟩ rfl

/-- Claim C3: a user who already has the configured maximum number of chats
gets a `LimitExceeded` failure from `createChat` (in whichever backend is in
use) and the whole manager state — the chat set and the active chat
included — is left completely unchanged. -/
theorem claim3_limit_exceeded (cfg : ChatConfig) (cm : CMState) (tid : Nat)
    (chatName model newId : String) (now : Nat) (usr : DbUser)
    (hdb : cm.useDatabase = true →
      cm.db.users.find? (fun u => u.telegramId == tid) = some usr ∧
      cfg.maxChatsPerUser ≤ (dbGetUserChats cm.db usr.id).length)
    (hjs : cm.useDatabase = false → cfg.maxChatsPerUser ≤ cm.json.chats.length) :
    cmCreateChat cfg cm tid chatName model newId now = (.error .limitExceeded, cm) := by
  obtain ⟨ud, js, db⟩ := cm
  cases ud with
  | true =>
    obtain ⟨hfind, hlim⟩ := hdb rfl
    unfold cmCreateChat createChatDB getUserOrCreate
    rw [hfind]
    dsimp only
    rw [if_pos hlim]
    rfl
  | false =>
    have hlim := hjs rfl
    unfold cmCreateChat createChatJSON
    rw [if_pos hlim]
    rfl

/-- Witness for C3: a flat-file user at a configured limit of one chat. -/
theorem claim3_witness :
    cmCreateChat ⟨1, 50⟩ cmAtLimit 7 "new" "m" "nid" 9 = (.error .limitExceeded, cmAtLimit) :=
  claim3_limit_exceeded ⟨1, 50⟩ cmAtLimit 7 "new" "m" "nid" 9 ⟨1, 7⟩
    (fun h => absurd h (by decide)) (fun _ => by decide)

/-- Claim C4: for `createChat` (in both backends) and `renameChat`, a chat
name whose length equals the configured maximum succeeds, while a name
exactly one character longer fails with a `ValidationError` (the
name-too-long branch). -/
theorem claim4_name_length_boundary :
    (∀ (cfg : ChatConfig) (u : UserData) (name newId : String) (now : Nat),
      u.chats.length < cfg.maxChatsPerUser → name.length = cfg.maxChatNameLength →
        (createChatJSON cfg u name newId now).1 = .ok ⟨newId, name, now, now, 0⟩) ∧
    (∀ (cfg : ChatConfig) (u : UserData) (name newId : String) (now : Nat),
      u.chats.length < cfg.maxChatsPerUser → name.length = cfg.maxChatNameLength + 1 →
        (createChatJSON cfg u name newId now).1 = .error .nameTooLong) ∧
    (∀ (cfg : ChatConfig) (s : DbState) (tid : Nat) (name model : String) (now : Nat),
      (dbGetUserChats (getUserOrCreate s tid).2 (getUserOrCreate s tid).1.id).length
          < cfg.maxChatsPerUser →
      name.length = cfg.maxChatNameLength →
        ∃ c, (createChatDB cfg s tid name model now).1 = .ok c ∧ c.name = name ∧
          c.isActive = true) ∧
    (∀ (cfg : ChatConfig) (s : DbState) (tid : Nat) (name model : String) (now : Nat),
      (dbGetUserChats (getUserOrCreate s tid).2 (getUserOrCreate s tid).1.id).length
          < cfg.maxChatsPerUser →
      name.length = cfg.maxChatNameLength + 1 →
        (createChatDB cfg s tid name model now).1 = .error .nameTooLong) ∧
    (∀ (cfg : ChatConfig) (u : UserData) (cid newName : String) (c : Chat),
      u.chats.find? (fun d => d.id == cid) = some c →
      newName.length = cfg.maxChatNameLength →
        (renameChat cfg u cid newName).1 = .ok { c with name := newName }) ∧
    (∀ (cfg : ChatConfig) (u : UserData) (cid newName : String) (c : Chat),
      u.chats.find? (fun d => d.id == cid) = some c →
      newName.length = cfg.maxChatNameLength + 1 →
        (renameChat cfg u cid newName).1 = .error .nameTooLong) := by
  refine ⟨?_, ?_, ?_, ?_, ?_, ?_⟩
  · intro cfg u name newId now hcount hname
    unfold createChatJSON
    rw [if_neg (not_le.mpr hcount), if_neg (by rw [hname]; exact lt_irrefl _)]
  · intro cfg u name newId now hcount hname
    unfold createChatJSON
    rw [if_neg (not_le.mpr hcount), if_pos (by rw [hname]; exact Nat.lt_succ_self _)]
  · intro cfg s tid name model now hcount hname
    unfold createChatDB
    rw [if_neg (not_le.mpr hcount), if_neg (by rw [hname]; exact lt_irrefl _)]
    exact ⟨_, rfl, rfl, rfl⟩
  · intro cfg s tid name model now hcount hname
    unfold createChatDB
    rw [if_neg (not_le.mpr hcount), if_pos (by rw [hname]; exact Nat.lt_succ_self _)]
  · intro cfg u cid newName c hfind hname
    unfold renameChat
    rw [hfind]
    dsimp only
    rw [if_neg (by rw [hname]; exact lt_irrefl _)]
  · intro cfg u cid newName c hfind hname
    unfold renameChat
    rw [hfind]
    dsimp only
    rw [if_pos (by rw [hname]; exact Nat.lt_succ_self _)]

/-- Witness for C4 at a configured maximum name length of 2: name "ab"
succeeds, name "abc" fails, for create (both backends) and rename. -/
theorem claim4_witness :
    (createChatJSON ⟨10, 2⟩ initialUserData "ab" "i1" 0).1 = .ok ⟨"i1", "ab", 0, 0, 0⟩ ∧
    (createChatJSON ⟨10, 2⟩ initialUserData "abc" "i1" 0).1 = .error .nameTooLong ∧
    (∃ c, (createChatDB ⟨10, 2⟩ emptyDbState 7 "ab" "m" 0).1 = .ok c ∧ c.name = "ab" ∧
      c.isActive = true) ∧
    (createChatDB ⟨10, 2⟩ emptyDbState 7 "abc" "m" 0).1 = .error .nameTooLong ∧
    (renameChat ⟨10, 2⟩ oneChatUser "A" "ab").1
        = .ok ⟨"A", "ab", 0, 0, 0⟩ ∧
    (renameChat ⟨10, 2⟩ oneChatUser "A" "abc").1 = .error .nameTooLong :=
  ⟨claim4_name_length_boundary.1 ⟨10, 2⟩ initialUserData "ab" "i1" 0
      (by decide) (by decide),
   claim4_name_length_boundary.2.1 ⟨10, 2⟩ initialUserData "abc" "i1" 0
      (by decide) (by decide),
   claim4_name_length_boundary.2.2.1 ⟨10, 2⟩ emptyDbState 7 "ab" "m" 0
      (by decide) (by decide),
   claim4_name_length_boundary.2.2.2.1 ⟨10, 2⟩ emptyDbState 7 "abc" "m" 0
      (by decide) (by decide),
   claim4_name_length_boundary.2.2.2.2.1 ⟨10, 2⟩ oneChatUser "A" "ab"
      ⟨"A", "first", 0, 0, 0⟩ rfl (by decide),
   claim4_name_length_boundary.2.2.2.2.2 ⟨10, 2⟩ oneChatUser "A" "abc"
      ⟨"A", "first", 0, 0, 0⟩ rfl (by decide)⟩

/-- Claim C5 counterexample: the flat-file backend accepts a rating of 6 —
`saveCommentRatingJSON` succeeds and appends the record although 6 is outside
`[1,5]`, refuting the claim for the flat-file store. -/
theorem claim5_counterexample :
    (saveCommentRatingJSON [] "c1" 6 "ctx" "fid" 0).1
        = .ok (.rating "fid" "c1" 6 "ctx" 0) ∧
    (saveCommentRatingJSON [] "c1" 6 "ctx" "fid" 0).2
        = [.rating "fid" "c1" 6 "ctx" 0] ∧
    ¬(1 ≤ (6 : Int) ∧ (6 : Int) ≤ 5) :=
  ⟨rfl, rfl, by decide⟩

/-- Claim C5 (amended): only the structured backend rejects an out-of-range
rating — the insert violates the feedback table's CHECK constraint, the
operation fails, and no feedback row is written; the flat-file backend
performs no rating validation and writes the record unconditionally. -/
theorem claim5_amended :
    (∀ (s : DbState) (tid : Nat) (cid : String) (v : Int) (ctx : String) (now : Nat),
      v < 1 ∨ 5 < v →
        (saveCommentRatingDB s tid cid v ctx now).1 = .error .checkConstraint ∧
        (saveCommentRatingDB s tid cid v ctx now).2.feedback = s.feedback) ∧
    (∀ (cache : List FeedbackEntry) (cid : String) (v : Int) (ctx nid : String) (now : Nat),
      (saveCommentRatingJSON cache cid v ctx nid now).1 = .ok (.rating nid cid v ctx now) ∧
      (saveCommentRatingJSON cache cid v ctx nid now).2 = cache ++ [.rating nid cid v ctx now]) := by
  constructor
  · intro s tid cid v ctx now hv
    have hcond : (decide (1 ≤ v) && decide (v ≤ 5)) = false := by
      rcases hv with h | h
      · have hn : ¬ (1 ≤ v) := not_le.mpr h
        simp [hn]
      · have hn : ¬ (v ≤ 5) := not_le.mpr h
        simp [hn]
    have hfeed : ((getUserOrCreate s tid).2).feedback = s.feedback := by
      unfold getUserOrCreate
      cases s.users.find? (fun u => u.telegramId == tid) <;> rfl
    unfold saveCommentRatingDB dbSaveFeedback
    dsimp only
    rw [hcond]
    exact ⟨rfl, hfeed⟩
  · intro cache cid v ctx nid now
    exact ⟨rfl, rfl⟩

/-- Witness for C5 (amended): rating 6 in the structured backend. -/
theorem claim5_witness :
    (saveCommentRatingDB emptyDbState 7 "c1" 6 "ctx" 0).1 = .error .checkConstraint ∧
    (saveCommentRatingDB emptyDbState 7 "c1" 6 "ctx" 0).2.feedback = emptyDbState.feedback :=
  claim5_amended.1 emptyDbState 7 "c1" 6 "ctx" 0 (Or.inr (by decide))

/-- Claim C7 counterexample: `threeChatUser` holds chats `A`, `B`, `C` in
creation order with `A` active; deleting `A` promotes `B`
(`userData.chats[0]`), although `C` — still present — was more recently
created and used (`lastUsed` 2 against 1).  The promoted chat is therefore
not the most recently created/updated remaining chat. -/
theorem claim7_counterexample :
    (deleteChat threeChatUser "A").2.activeChatId = some "B" ∧
    ∃ b ∈ (deleteChat threeChatUser "A").2.chats, b.id = "B" ∧
      ∃ c ∈ (deleteChat threeChatUser "A").2.chats, b.lastUsed < c.lastUsed := by
  exact ⟨rfl, ⟨"B", "b", 1, 1, 0⟩, by decide, rfl, ⟨"C", "c", 2, 2, 0⟩, by decide, by decide⟩

/-- Claim C7 (amended): deleting the currently active chat promotes the
*first remaining chat in stored order* (`userData.chats[0]`, the
earliest-created remaining chat) when one exists; deleting the last chat
leaves the user with no active chat and `getActiveChat` then fails (no
active chat). -/
theorem claim7_amended (u : UserData) (cid : String) (c : Chat)
    (hfind : u.chats.find? (fun d => d.id == cid) = some c)
    (hact : u.activeChatId = some cid) :
    (deleteChat u cid).1 = .ok c ∧
    (deleteChat u cid).2.chats = u.chats.eraseP (fun d => d.id == cid) ∧
    (∀ d ds, u.chats.eraseP (fun d2 => d2.id == cid) = d :: ds →
      (deleteChat u cid).2.activeChatId = some d.id) ∧
    (u.chats.eraseP (fun d2 => d2.id == cid) = [] →
      (deleteChat u cid).2.activeChatId = none ∧
      getActiveChatJSON (deleteChat u cid).2 = .error .noActiveChat) := by
  unfold deleteChat
  rw [hfind]
  dsimp only
  rw [if_pos hact]
  refine ⟨rfl, rfl, ?_, ?_⟩
  · intro d ds h
    rw [h]
    rfl
  · intro h
    rw [h]
    exact ⟨rfl, rfl⟩

/-- Witness for C7 (amended): deleting the only (active) chat of
`oneChatUser`. -/
theorem claim7_witness :
    (deleteChat oneChatUser "A").1 = .ok ⟨"A", "first", 0, 0, 0⟩ ∧
    (deleteChat oneChatUser "A").2.chats
        = oneChatUser.chats.eraseP (fun d => d.id == "A") ∧
    (∀ d ds, oneChatUser.chats.eraseP (fun d2 => d2.id == "A") = d :: ds →
      (deleteChat oneChatUser "A").2.activeChatId = some d.id) ∧
    (oneChatUser.chats.eraseP (fun d2 => d2.id == "A") = [] →
      (deleteChat oneChatUser "A").2.activeChatId = none ∧
      getActiveChatJSON (deleteChat oneChatUser "A").2 = .error .noActiveChat) :=
  claim7_amended oneChatUser "A" ⟨"A", "first", 0, 0, 0⟩ rfl rfl

/-- Claim C2 counterexample: with the database backend in use (`cmDbMode`,
whose database holds chat row 1 named "orig" for user 7), `renameChat` does
not mutate the backend in use: it consults only the flat-file store, fails
with chat-not-found, and leaves the whole state — the database row
included — unchanged. -/
theorem claim2_counterexample :
    cmDbMode.useDatabase = true ∧
    (∃ c ∈ cmDbMode.db.chats, c.id = 1 ∧ c.name = "orig") ∧
    cmRenameChat defaultChatConfig cmDbMode "1" "renamed"
        = (.error .chatNotFound, cmDbMode) := by
  refine ⟨rfl, ⟨⟨1, 1, "orig", "m", true, 0, 0, 0⟩, by decide, rfl, rfl⟩, rfl⟩

/-- Claim C2 (amended): the two implementations are not equivalent.
`renameChat` and `deleteChat` operate on the flat-file store unconditionally:
their result depends only on the flat-file entry and the database and
backend flag are left untouched, whichever backend is in use.  The backends
do agree on a fresh user's first `createChat`: both produce a single chat
with the requested name which is the user's sole, active chat. -/
theorem claim2_amended :
    (∀ (cfg : ChatConfig) (cm : CMState) (cid nn : String),
      (cmRenameChat cfg cm cid nn).2.db = cm.db ∧
      (cmRenameChat cfg cm cid nn).2.useDatabase = cm.useDatabase ∧
      (cmRenameChat cfg cm cid nn).1 = (renameChat cfg cm.json cid nn).1 ∧
      (cmRenameChat cfg cm cid nn).2.json = (renameChat cfg cm.json cid nn).2) ∧
    (∀ (cm : CMState) (cid : String),
      (cmDeleteChat cm cid).2.db = cm.db ∧
      (cmDeleteChat cm cid).2.useDatabase = cm.useDatabase ∧
      (cmDeleteChat cm cid).1 = (deleteChat cm.json cid).1 ∧
      (cmDeleteChat cm cid).2.json = (deleteChat cm.json cid).2) ∧
    (∀ (cfg : ChatConfig) (name newId model : String) (now tid : Nat),
      1 ≤ cfg.maxChatsPerUser → name.length ≤ cfg.maxChatNameLength →
        (∃ c, (createChatJSON cfg initialUserData name newId now).1 = .ok c ∧
          c.name = name ∧
          (createChatJSON cfg initialUserData name newId now).2.chats = [c] ∧
          (createChatJSON cfg initialUserData name newId now).2.activeChatId = some c.id) ∧
        (∃ c, (createChatDB cfg emptyDbState tid name model now).1 = .ok c ∧
          c.name = name ∧
          (createChatDB cfg emptyDbState tid name model now).2.chats = [c] ∧
          c.isActive = true)) := by
  refine ⟨fun cfg cm cid nn => ⟨rfl, rfl, rfl, rfl⟩,
    fun cm cid => ⟨rfl, rfl, rfl, rfl⟩, ?_⟩
  intro cfg name newId model now tid hmax hname
  constructor
  · unfold createChatJSON
    rw [if_neg (not_le.mpr hmax), if_neg (not_lt.mpr hname)]
    exact ⟨_, rfl, rfl, rfl, rfl⟩
  · have h0 : (dbGetUserChats (getUserOrCreate emptyDbState tid).2
        (getUserOrCreate emptyDbState tid).1.id).length = 0 := rfl
    unfold createChatDB
    dsimp only
    rw [h0, if_neg (not_le.mpr hmax), if_neg (not_lt.mpr hname)]
    exact ⟨_, rfl, rfl, rfl, rfl⟩

/-- Witness for C2 (amended): fresh-user first-create agreement at the
default configuration. -/
theorem claim2_witness :
    (∃ c, (createChatJSON defaultChatConfig initialUserData "chat" "nid" 3).1 = .ok c ∧
      c.name = "chat" ∧
      (createChatJSON defaultChatConfig initialUserData "chat" "nid" 3).2.chats = [c] ∧
      (createChatJSON defaultChatConfig initialUserData "chat" "nid" 3).2.activeChatId
        = some c.id) ∧
    (∃ c, (createChatDB defaultChatConfig emptyDbState 7 "chat" "m" 3).1 = .ok c ∧
      c.name = "chat" ∧
      (createChatDB defaultChatConfig emptyDbState 7 "chat" "m" 3).2.chats = [c] ∧
      c.isActive = true) :=
  claim2_amended.2.2 defaultChatConfig "chat" "nid" "m" 3 7 (by decide) (by decide)

/-- Claim C8 counterexample: after a fresh user creates chat "A" (time 0)
and then chat "B" (time 1), the flat-file listing returns the stored list in
insertion order — "A" first — although "B" (lastUsed 1) is the more recently
updated chat, refuting most-recently-updated-first ordering for
`getChatsJSON`. -/
theorem claim8_counterexample :
    (getChatsJSON jsonAB).1.map (fun c => (c.name, c.lastUsed)) = [("A", 0), ("B", 1)] ∧
    ("A" : String) ≠ "B" :=
  ⟨rfl, by decide⟩

/-- Claim C8 (amended): the structured backend's `getUserChats` returns the
user's chats ordered most-recently-updated first (a sorted permutation of
the user's rows), and on the create-"A"-then-"B" scenario lists "B" first;
the flat-file `getChatsJSON` returns the stored list in insertion order and
lists "A" first on the same scenario. -/
theorem claim8_amended :
    (∀ (s : DbState) (uid : Nat),
      List.Sorted byUpdatedDesc (dbGetUserChats s uid) ∧
      (dbGetUserChats s uid).Perm (s.chats.filter (fun c => c.userId == uid))) ∧
    (dbGetUserChats dbAB 1).map (fun c => c.name) = ["B", "A"] ∧
    (getChatsJSON jsonAB).1.map (fun c => c.name) = ["A", "B"] ∧
    (getChatsJSON jsonAB).1 = jsonAB.chats := by
  refine ⟨fun s uid => ⟨List.sorted_insertionSort byUpdatedDesc _,
    List.perm_insertionSort byUpdatedDesc _⟩, rfl, rfl, rfl⟩

/-! ### Characterising the statistics fold (for C6) -/

theorem statsFold_totalFeedback :
    ∀ (cache : List FeedbackEntry) (a : FeedbackStats × Int × Nat),
      (cache.foldl statsStep a).1.totalFeedback = a.1.totalFeedback
  | [], _ => rfl
  | fb :: cs, a => by
    rw [List.foldl_cons, statsFold_totalFeedback cs]
    cases fb <;> rfl

theorem statsFold_averageRating :
    ∀ (cache : List FeedbackEntry) (a : FeedbackStats × Int × Nat),
      (cache.foldl statsStep a).1.averageRating = a.1.averageRating
  | [], _ => rfl
  | fb :: cs, a => by
    rw [List.foldl_cons, statsFold_averageRating cs]
    cases fb <;> rfl

theorem statsFold_improvement :
    ∀ (cache : List FeedbackEntry) (a : FeedbackStats × Int × Nat),
      (cache.foldl statsStep a).1.improvementFeedback
        = a.1.improvementFeedback + (cache.filter isImprovement).length
  | [], _ => rfl
  | fb :: cs, a => by
    rw [List.foldl_cons, statsFold_improvement cs]
    cases fb with
    | rating i c v ctx ts => simp [statsStep, isImprovement]
    | improvement i c tx ctx ts =>
        simp only [statsStep, isImprovement, List.filter_cons_of_pos, List.length_cons]
        omega

theorem statsFold_ratings :
    ∀ (cache : List FeedbackEntry) (a : FeedbackStats × Int × Nat) (r : Int),
      (cache.foldl statsStep a).1.ratings r
        = a.1.ratings r + (ratingValues cache).count r
  | [], _, _ => rfl
  | fb :: cs, a, r => by
    rw [List.foldl_cons, statsFold_ratings cs]
    cases fb with
    | rating i c v ctx ts =>
        by_cases hveq : r = v
        · subst hveq
          simp [statsStep, ratingValues, List.count_cons]
          omega
        · simp [statsStep, ratingValues, List.count_cons, hveq,
            fun h : v = r => hveq h.symm]
    | improvement i c tx ctx ts => simp [statsStep, ratingValues]

theorem statsFold_sum :
    ∀ (cache : List FeedbackEntry) (a : FeedbackStats × Int × Nat),
      (cache.foldl statsStep a).2.1 = a.2.1 + (ratingValues cache).sum
  | [], _ => by simp [ratingValues]
  | fb :: cs, a => by
    rw [List.foldl_cons, statsFold_sum cs]
    cases fb with
    | rating i c v ctx ts =>
        simp [statsStep, ratingValues]
        ring
    | improvement i c tx ctx ts => simp [statsStep, ratingValues]

theorem statsFold_count :
    ∀ (cache : List FeedbackEntry) (a : FeedbackStats × Int × Nat),
      (cache.foldl statsStep a).2.2 = a.2.2 + (ratingValues cache).length
  | [], _ => rfl
  | fb :: cs, a => by
    rw [List.foldl_cons, statsFold_count cs]
    cases fb with
    | rating i c v ctx ts =>
        simp [statsStep, ratingValues]
        omega
    | improvement i c tx ctx ts => simp [statsStep, ratingValues]

/-- Claim C6: recording one rating-kind feedback of value 3 for a user with
no prior feedback and then reading the statistics yields total 1, one record
in the rating-3 bucket, 0 in the other buckets, 0 improvement records, and
average "3.0" (30 tenths); in general the total counts every record exactly
once, each in-range bucket counts exactly the rating-kind records with that
value, the improvement counter counts exactly the improvement-kind records,
and the average is computed only over rating-kind records, rounded to one
decimal, and is the number 0 (modelled `none`) when no ratings exist. -/
theorem claim6_feedback_stats :
    ((getUserFeedbackStats (saveCommentRatingJSON [] "E1" 3 "ctx" "fid" 0).2).totalFeedback = 1 ∧
     (getUserFeedbackStats (saveCommentRatingJSON [] "E1" 3 "ctx" "fid" 0).2).ratings 3 = 1 ∧
     (getUserFeedbackStats (saveCommentRatingJSON [] "E1" 3 "ctx" "fid" 0).2).ratings 1 = 0 ∧
     (getUserFeedbackStats (saveCommentRatingJSON [] "E1" 3 "ctx" "fid" 0).2).ratings 2 = 0 ∧
     (getUserFeedbackStats (saveCommentRatingJSON [] "E1" 3 "ctx" "fid" 0).2).ratings 4 = 0 ∧
     (getUserFeedbackStats (saveCommentRatingJSON [] "E1" 3 "ctx" "fid" 0).2).ratings 5 = 0 ∧
     (getUserFeedbackStats (saveCommentRatingJSON [] "E1" 3 "ctx" "fid" 0).2).improvementFeedback = 0 ∧
     (getUserFeedbackStats (saveCommentRatingJSON [] "E1" 3 "ctx" "fid" 0).2).averageRating = some 30) ∧
    (∀ cache, (getUserFeedbackStats cache).totalFeedback = cache.length) ∧
    (∀ (cache : List FeedbackEntry) (r : Int), 1 ≤ r → r ≤ 5 →
      (getUserFeedbackStats cache).ratings r = (ratingValues cache).count r) ∧
    (∀ cache, (getUserFeedbackStats cache).improvementFeedback
        = (cache.filter isImprovement).length) ∧
    (∀ cache, ratingValues cache = [] → (getUserFeedbackStats cache).averageRating = none) ∧
    (∀ cache, ratingValues cache ≠ [] →
      (getUserFeedbackStats cache).averageRating
        = some (toFixed1 (ratingValues cache).sum (ratingValues cache).length)) := by
  refine ⟨⟨rfl, rfl, rfl, rfl, rfl, rfl, rfl, rfl⟩, ?_, ?_, ?_, ?_, ?_⟩
  · intro cache
    unfold getUserFeedbackStats
    dsimp only
    by_cases h : (cache.foldl statsStep (⟨cache.length, fun _ => 0, 0, none⟩, 0, 0)).2.2 = 0
    · rw [if_pos h]
      exact statsFold_totalFeedback cache _
    · rw [if_neg h]
      exact statsFold_totalFeedback cache _
  · intro cache r _ _
    unfold getUserFeedbackStats
    dsimp only
    by_cases h : (cache.foldl statsStep (⟨cache.length, fun _ => 0, 0, none⟩, 0, 0)).2.2 = 0
    · rw [if_pos h]
      exact (statsFold_ratings cache (⟨cache.length, fun _ => 0, 0, none⟩, 0, 0) r).trans
        (Nat.zero_add _)
    · rw [if_neg h]
      exact (statsFold_ratings cache (⟨cache.length, fun _ => 0, 0, none⟩, 0, 0) r).trans
        (Nat.zero_add _)
  · intro cache
    unfold getUserFeedbackStats
    dsimp only
    by_cases h : (cache.foldl statsStep (⟨cache.length, fun _ => 0, 0, none⟩, 0, 0)).2.2 = 0
    · rw [if_pos h]
      exact (statsFold_improvement cache (⟨cache.length, fun _ => 0, 0, none⟩, 0, 0)).trans
        (Nat.zero_add _)
    · rw [if_neg h]
      exact (statsFold_improvement cache (⟨cache.length, fun _ => 0, 0, none⟩, 0, 0)).trans
        (Nat.zero_add _)
  · intro cache hnil
    unfold getUserFeedbackStats
    dsimp only
    have hc : (cache.foldl statsStep (⟨cache.length, fun _ => 0, 0, none⟩, 0, 0)).2.2 = 0 := by
      rw [statsFold_count, hnil]
      rfl
    rw [if_pos hc]
    exact statsFold_averageRating cache _
  · intro cache hne
    unfold getUserFeedbackStats
    dsimp only
    have hc : (cache.foldl statsStep (⟨cache.length, fun _ => 0, 0, none⟩, 0, 0)).2.2 ≠ 0 := by
      rw [statsFold_count]
      simpa using fun h => hne (List.length_eq_zero.mp h)
    rw [if_neg hc]
    rw [statsFold_sum, statsFold_count]
    simp

/-- Witness for C6: the hypothesised conjuncts at the one-record cache. -/
theorem claim6_witness :
    (getUserFeedbackStats [FeedbackEntry.rating "f" "c" 3 "ctx" 0]).ratings 3
        = (ratingValues [FeedbackEntry.rating "f" "c" 3 "ctx" 0]).count 3 ∧
    (getUserFeedbackStats []).averageRating = none ∧
    (getUserFeedbackStats [FeedbackEntry.rating "f" "c" 3 "ctx" 0]).averageRating
        = some (toFixed1 (ratingValues [FeedbackEntry.rating "f" "c" 3 "ctx" 0]).sum
            (ratingValues [FeedbackEntry.rating "f" "c" 3 "ctx" 0]).length) :=
  ⟨claim6_feedback_stats.2.2.1 [FeedbackEntry.rating "f" "c" 3 "ctx" 0] 3
      (by decide) (by decide),
   claim6_feedback_stats.2.2.2.2.1 [] rfl,
   claim6_feedback_stats.2.2.2.2.2 [FeedbackEntry.rating "f" "c" 3 "ctx" 0] (by decide)⟩

/-! ### Characterising the retry loop (for C9) -/

theorem genLoop_attempts_ne_nil (outcomes : Nat → Except GenErr String)
    (text : String) (retries : Nat) (h : validText text = true) :
    ∀ (remaining attempt : Nat), 1 ≤ remaining →
      (genLoop outcomes text retries attempt remaining).2.1 ≠ []
  | 0, _, h1 => absurd h1 (by omega)
  | rem + 1, attempt, _ => by
    unfold genLoop
    rw [if_pos h]
    cases ho : outcomes attempt with
    | ok t => simp
    | error er =>
      dsimp only
      by_cases hl : attempt = retries
      · rw [if_pos hl]
        simp
      · rw [if_neg hl]
        simp

theorem genLoop_spec (outcomes : Nat → Except GenErr String) (text : String)
    (retries : Nat) (h : validText text = true) :
    ∀ (remaining attempt : Nat), attempt + remaining = retries + 1 →
      ((genLoop outcomes text retries attempt remaining).2.1
          = List.range' attempt (genLoop outcomes text retries attempt remaining).2.1.length) ∧
      (genLoop outcomes text retries attempt remaining).2.1.length ≤ remaining ∧
      ((genLoop outcomes text retries attempt remaining).2.2
          = (genLoop outcomes text retries attempt remaining).2.1.dropLast.map
              (fun i => 2000 * i))
  | 0, attempt, _ => by
    refine ⟨rfl, le_refl _, rfl⟩
  | rem + 1, attempt, hinv => by
    unfold genLoop
    rw [if_pos h]
    cases ho : outcomes attempt with
    | ok t => exact ⟨rfl, by simp, rfl⟩
    | error er =>
      dsimp only
      by_cases hl : attempt = retries
      · rw [if_pos hl]
        exact ⟨rfl, by simp, rfl⟩
      · rw [if_neg hl]
        have hrem : 1 ≤ rem := by omega
        obtain ⟨hrange, hlen, hdel⟩ :=
          genLoop_spec outcomes text retries h rem (attempt + 1) (by omega)
        have hnn := genLoop_attempts_ne_nil outcomes text retries h rem (attempt + 1) hrem
        dsimp only
        refine ⟨?_, by simpa using hlen, ?_⟩
        · rw [List.length_cons, List.range'_succ, ← hrange]
        · obtain ⟨b, bs, hbs⟩ := List.exists_cons_of_ne_nil hnn
          rw [hbs] at hdel ⊢
          rw [hdel]
          rfl

theorem genLoop_all_fail (outcomes : Nat → Except GenErr String) (text : String)
    (retries : Nat) (h : validText text = true) (e : Nat → GenErr) :
    ∀ (remaining attempt : Nat), attempt + remaining = retries + 1 → 1 ≤ remaining →
      (∀ i, attempt ≤ i → i ≤ retries → outcomes i = .error (e i)) →
      (genLoop outcomes text retries attempt remaining).1 = some (.error (e retries))
  | 0, _, _, h1, _ => absurd h1 (by omega)
  | rem + 1, attempt, hinv, _, hall => by
    unfold genLoop
    rw [if_pos h]
    have hle : attempt ≤ retries := by omega
    rw [hall attempt le_rfl hle]
    dsimp only
    by_cases hl : attempt = retries
    · rw [if_pos hl]
      dsimp only
      rw [hl]
    · rw [if_neg hl]
      dsimp only
      exact genLoop_all_fail outcomes text retries h e rem (attempt + 1) (by omega)
        (by omega) (fun i hi1 hi2 => hall i (by omega) hi2)

theorem genLoop_success (outcomes : Nat → Except GenErr String) (text : String)
    (retries : Nat) (h : validText text = true) (t : String) (j : Nat) :
    ∀ (remaining attempt : Nat), attempt + remaining = retries + 1 →
      attempt ≤ j → j ≤ retries → outcomes j = .ok t →
      (∀ i, attempt ≤ i → i < j → ∃ ei, outcomes i = .error ei) →
      (genLoop outcomes text retries attempt remaining).1 = some (.ok t)
  | 0, attempt, hinv, haj, hjr, _, _ => absurd (le_trans haj hjr) (by omega)
  | rem + 1, attempt, hinv, haj, hjr, hok, hfail => by
    unfold genLoop
    rw [if_pos h]
    by_cases hja : attempt = j
    · subst hja
      rw [hok]
    · have haj' : attempt < j := lt_of_le_of_ne haj hja
      obtain ⟨ei, hei⟩ := hfail attempt le_rfl haj'
      rw [hei]
      dsimp only
      have hl : attempt ≠ retries := by omega
      rw [if_neg hl]
      dsimp only
      exact genLoop_success outcomes text retries h t j rem (attempt + 1) (by omega)
        (by omega) hjr hok (fun i hi1 hi2 => hfail i (by omega) hi2)

/-- Claim C9: the remote generation call is attempted at most N times
(N = `maxRetries || config.qwen.maxRetries`, here the configured value,
default 3): the attempt indices made are the consecutive block starting at 1
of length at most N; the delay slept before each retry is the index of the
just-failed attempt times the fixed base delay of 2000 ms; when every
attempt fails, only the final attempt's error is surfaced; when some attempt
succeeds, its result is returned and the earlier failures are not. -/
theorem claim9_retry_policy (outcomes : Nat → Except GenErr String) (text : String)
    (cfgMaxRetries : Nat) (e : Nat → GenErr) (t : String) (j : Nat)
    (hvalid : validText text = true) :
    ((generateComments outcomes text none cfgMaxRetries).2.1
        = List.range' 1 (generateComments outcomes text none cfgMaxRetries).2.1.length ∧
     (generateComments outcomes text none cfgMaxRetries).2.1.length ≤ cfgMaxRetries ∧
     (generateComments outcomes text none cfgMaxRetries).2.2
        = (generateComments outcomes text none cfgMaxRetries).2.1.dropLast.map
            (fun i => 2000 * i)) ∧
    (1 ≤ cfgMaxRetries →
      (∀ i, 1 ≤ i → i ≤ cfgMaxRetries → outcomes i = .error (e i)) →
      (generateComments outcomes text none cfgMaxRetries).1
        = some (.error (e cfgMaxRetries))) ∧
    (1 ≤ j → j ≤ cfgMaxRetries → outcomes j = .ok t →
      (∀ i, 1 ≤ i → i < j → ∃ ei, outcomes i = .error ei) →
      (generateComments outcomes text none cfgMaxRetries).1 = some (.ok t)) := by
  have hgen : generateComments outcomes text none cfgMaxRetries
      = genLoop outcomes text cfgMaxRetries 1 cfgMaxRetries := rfl
  rw [hgen]
  exact ⟨genLoop_spec outcomes text cfgMaxRetries hvalid cfgMaxRetries 1 (by omega),
    fun h1 hall => genLoop_all_fail outcomes text cfgMaxRetries hvalid e
      cfgMaxRetries 1 (by omega) h1 (fun i hi1 hi2 => hall i hi1 hi2),
    fun h1 hj hok hfail => genLoop_success outcomes text cfgMaxRetries hvalid t j
      cfgMaxRetries 1 (by omega) h1 hj hok (fun i hi1 hi2 => hfail i hi1 hi2)⟩

/-- Witness for C9 at the default of 3 attempts: with every attempt failing
only attempt 3's error is surfaced; with attempts 1–2 failing and attempt 3
succeeding the success is returned; the delays are 2000 ms times the failed
attempt's index. -/
theorem claim9_witness :
    (generateComments (fun i => Except.error (GenErr.apiError i)) "hello" none 3).1
        = some (.error (.apiError 3)) ∧
    (generateComments
        (fun i => if i = 3 then Except.ok "done" else Except.error (GenErr.apiError i))
        "hello" none 3).1 = some (.ok "done") ∧
    (generateComments (fun i => Except.error (GenErr.apiError i)) "hello" none 3).2.2
        = (generateComments (fun i => Except.error (GenErr.apiError i)) "hello"
            none 3).2.1.dropLast.map (fun i => 2000 * i) :=
  ⟨(claim9_retry_policy (fun i => Except.error (GenErr.apiError i)) "hello" 3
      (fun i => GenErr.apiError i) "x" 1 (by decide)).2.1 (by decide)
      (fun i _ _ => rfl),
   (claim9_retry_policy
      (fun i => if i = 3 then Except.ok "done" else Except.error (GenErr.apiError i))
      "hello" 3 (fun i => GenErr.apiError i) "done" 3 (by decide)).2.2 (by decide)
      (by decide) rfl
      (fun i _ h2 => ⟨GenErr.apiError i, by rw [if_neg (by omega)]⟩),
   (claim9_retry_policy (fun i => Except.error (GenErr.apiError i)) "hello" 3
      (fun i => GenErr.apiError i) "x" 1 (by decide)).1.2.2⟩

end Comm
